import Mathlib

/-!
Verification of the donation-order proxy servers (CartPanda checkout
builders).  JavaScript strings are modelled as `List Char`, JS numbers as
`JSNum` (a rational or NaN), and request/response JSON values as `JVal`.
Randomness (`Math.random`) is modelled by an explicit supply of natural
numbers; each draw consumes the head of the supply, so quantifying over
supplies quantifies over all possible random outcomes.
-/

abbrev Str := List Char

/-- Whitespace test used for JS `trim` and `\s` (ASCII approximation). -/
def wsChar (c : Char) : Bool := c.isWhitespace

/-- JS `String.prototype.trim`: drop trailing whitespace (via reverse), then
leading whitespace. -/
def jsTrim (s : Str) : Str := ((s.reverse.dropWhile wsChar).reverse).dropWhile wsChar

/-- JS `split(/\s+/)`, character by character: a whitespace character that is
not part of an already-started whitespace run opens a new (possibly empty)
piece, and a non-whitespace character is prepended to the current first
piece.  The empty string splits to `[""]`, and leading/trailing whitespace
yields empty first/last pieces, matching JavaScript. -/
def jsSplitWs : Str → List Str
  | [] => [[]]
  | c :: rest =>
    let res := jsSplitWs rest
    if wsChar c then
      match rest with
      | [] => [] :: res
      | d :: _ => if wsChar d then res else [] :: res
    else
      match res with
      | [] => [[c]]
      | t :: ts => (c :: t) :: ts

/-- Reference notion of whitespace-splitting: split at every whitespace
character, keeping empty pieces (so tokens are the nonempty pieces). -/
def splitOnWs : Str → List Str
  | [] => [[]]
  | c :: rest =>
    match splitOnWs rest with
    | [] => [[]]
    | t :: ts => if wsChar c then [] :: t :: ts else (c :: t) :: ts

/-- The whitespace-separated tokens of a string: the nonempty pieces of the
whitespace split. -/
def wsTokens (s : Str) : List Str := (splitOnWs s).filter (· ≠ [])

/-- JS numbers: NaN or a (rational-valued) finite number. -/
inductive JSNum where
  | nan : JSNum
  | fin (q : ℚ) : JSNum
deriving DecidableEq, Repr

/-- JS truthiness of a number: `NaN` and `0` are falsy. -/
def JSNum.truthy : JSNum → Bool
  | .nan => false
  | .fin q => q != 0

/-- `isNaN` on an (already converted) number. -/
def JSNum.isNan : JSNum → Bool
  | .nan => true
  | .fin _ => false

/-- `x <= 0` in JS: false for NaN. -/
def JSNum.leZero : JSNum → Bool
  | .nan => false
  | .fin q => decide (q ≤ 0)

/-- JSON-ish request values: absent, a number, or a string. -/
inductive JVal where
  | undef : JVal
  | num (x : JSNum) : JVal
  | str (s : Str) : JVal
deriving DecidableEq, Repr

/-- JS truthiness: `undefined`, `NaN`, `0` and `""` are falsy. -/
def JVal.truthy : JVal → Bool
  | .undef => false
  | .num x => x.truthy
  | .str s => s != []

/-- Digits-only string to natural number. -/
def natOfDigits (l : Str) : ℕ := l.foldl (fun a c => a * 10 + (c.toNat - 48)) 0

/-- Unsigned decimal literal: `digits`, `digits.digits`, `digits.` or
`.digits`; anything else is NaN. -/
def parseDecUnsigned (l : Str) : JSNum :=
  let intPart := l.takeWhile (fun c => c ≠ '.')
  let rest := l.dropWhile (fun c => c ≠ '.')
  match rest with
  | [] =>
    if intPart ≠ [] ∧ intPart.all Char.isDigit then .fin (natOfDigits intPart) else .nan
  | _ :: frac =>
    if (intPart ≠ [] ∨ frac ≠ []) ∧ intPart.all Char.isDigit ∧ frac.all Char.isDigit
        ∧ frac.all (fun c => c ≠ '.')
    then .fin ((natOfDigits intPart : ℚ) + (natOfDigits frac : ℚ) / (10 : ℚ) ^ frac.length)
    else .nan

/-- JS `ToNumber` on a string, restricted to plain decimal literals (no
hex/exponent/Infinity forms): trim, empty means 0, optional sign, decimal
digits with at most one dot. -/
def jsStrToNum (s : Str) : JSNum :=
  let t := jsTrim s
  match t with
  | [] => .fin 0
  | c :: rest =>
    if c = '-' then
      match parseDecUnsigned rest with
      | .nan => .nan
      | .fin q => .fin (-q)
    else if c = '+' then parseDecUnsigned rest
    else parseDecUnsigned t

/-- JS `Number(v)` conversion. -/
def toNumber : JVal → JSNum
  | .undef => .nan
  | .num x => x
  | .str s => jsStrToNum s

/-- Printing a JS number into a template string.  Integral values print
exactly as in JS; non-integral rationals use Lean's rational printing (no
theorem depends on the non-integral case). -/
def jsNumToStr (x : JSNum) : Str :=
  match x with
  | .nan => "NaN".data
  | .fin q => if q.den = 1 then (toString q.num).data else (toString q).data

/-- Interpolation of a request value into a template string. -/
def jsValToStr : JVal → Str
  | .undef => "undefined".data
  | .num x => jsNumToStr x
  | .str s => s

/-- `splitFullName` (link-builder revision; the other revisions inline the
same three lines): split the trimmed full name on `/\s+/`, first token is the
first name, the rest joined with spaces is the last name (empty for a single
token). -/
def splitFullName (fullName : Str) : Str × Str :=
  let parts := jsSplitWs (jsTrim fullName)
  let first := parts.headD []
  let last := if parts.length > 1 then List.intercalate " ".data (parts.drop 1) else []
  (first, last)

/-! ### Randomized email transformation (link-builder revision)

`Math.random`-driven choices are modelled by a supply `g : List ℕ` of
arbitrary naturals; `getRandomInt min max` maps the next supply value into
`[min, max)`, so ranging over all supplies ranges over all outcomes. -/

/-- `getRandomInt(min, max)`: a value in `[min, max)` drawn from the supply. -/
def getRandomInt (lo hi : ℕ) (g : List ℕ) : ℕ × List ℕ :=
  (lo + g.headD 0 % (hi - lo), g.tail)

/-- `Math.random() < 0.5`: an arbitrary coin drawn from the supply. -/
def randCoin (g : List ℕ) : Bool × List ℕ :=
  (g.headD 0 % 2 == 0, g.tail)

/-- `isVowel`: a, e, i, o, u — case-insensitive. -/
def isVowel (c : Char) : Bool := "aeiouAEIOU".data.contains c

/-- Indices of characters of `s` satisfying `p` (the index-collecting loops
of `removeOneDigit` / `removeOneSymbol`). -/
def matchIndices (p : Char → Bool) (s : Str) : List ℕ :=
  (List.range s.length).filter (fun i => p (s.getD i ' '))

/-- `str.slice(0, i) + str.slice(i + 1)`. -/
def removeAt (s : Str) (i : ℕ) : Str := s.take i ++ s.drop (i + 1)

/-- `removeOneDigit`: remove one digit at a random position, if any. -/
def removeOneDigit (s : Str) (g : List ℕ) : (Str × Bool) × List ℕ :=
  let digitIndices := matchIndices Char.isDigit s
  if digitIndices = [] then ((s, false), g)
  else
    let (r, g') := getRandomInt 0 digitIndices.length g
    ((removeAt s (digitIndices.getD r 0), true), g')

/-- `removeOneSymbol`: remove one of `.`, `-`, `_` at a random position. -/
def removeOneSymbol (s : Str) (g : List ℕ) : (Str × Bool) × List ℕ :=
  let symbolIndices := matchIndices (fun c => ['.', '-', '_'].contains c) s
  if symbolIndices = [] then ((s, false), g)
  else
    let (r, g') := getRandomInt 0 symbolIndices.length g
    ((removeAt s (symbolIndices.getD r 0), true), g')

def vowelList : Str := ['a', 'e', 'i', 'o', 'u']

def consonantList : Str := "bcdfghjklmnpqrstvwxyz".data

/-- Pick a vowel different (case-insensitively) from `ex`. -/
def pickDifferentVowel (ex : Char) (g : List ℕ) : Char × List ℕ :=
  let possible := vowelList.filter (fun v => v.toLower != ex.toLower)
  let (r, g') := getRandomInt 0 possible.length g
  (possible.getD r 'a', g')

/-- Pick a consonant different from the lowercase of `ex`. -/
def pickDifferentConsonant (ex : Char) (g : List ℕ) : Char × List ℕ :=
  let filtered := consonantList.filter (fun c => c != ex.toLower)
  let (r, g') := getRandomInt 0 filtered.length g
  (filtered.getD r 'b', g')

/-- The digit-appending loop of alternative transform choice 1. -/
def appendRandomDigits (s : Str) (count : ℕ) (g : List ℕ) : Str × List ℕ :=
  match count with
  | 0 => (s, g)
  | n + 1 =>
    let (d, g') := getRandomInt 0 10 g
    appendRandomDigits (s ++ [Char.ofNat (48 + d)]) n g'

/-- `applyAlternativeTransform`: when no digit and no symbol is present,
either append one or two random digits, or remove the last (choice 2) or a
random (choice 3) character, optionally replacing it by a different
vowel/consonant. -/
def applyAlternativeTransform (localPart : Str) (g : List ℕ) : Str × List ℕ :=
  let (choice, g1) := getRandomInt 1 4 g
  if choice = 1 then
    let (count, g2) := getRandomInt 1 3 g1
    appendRandomDigits localPart count g2
  else if choice = 2 then
    match localPart.getLast? with
    | none => (localPart, g1)
    | some removedChar =>
      let newLocalPart := localPart.dropLast
      let (flip, g2) := randCoin g1
      if flip then
        if isVowel removedChar then
          let (v, g3) := pickDifferentVowel removedChar g2
          (newLocalPart ++ [v], g3)
        else
          let (k, g3) := pickDifferentConsonant removedChar g2
          (newLocalPart ++ [k], g3)
      else (newLocalPart, g2)
  else
    if localPart = [] then (localPart, g1)
    else
      let (idx, g2) := getRandomInt 0 localPart.length g1
      let removedChar := localPart.getD idx 'a'
      let newLocalPart := removeAt localPart idx
      let (flip, g3) := randCoin g2
      if flip then
        if isVowel removedChar then
          let (v, g4) := pickDifferentVowel removedChar g3
          (newLocalPart.take idx ++ [v] ++ newLocalPart.drop idx, g4)
        else
          let (k, g4) := pickDifferentConsonant removedChar g3
          (newLocalPart.take idx ++ [k] ++ newLocalPart.drop idx, g4)
      else (newLocalPart, g3)

/-- JS `split('@')`: split on every `'@'`, keeping empty pieces. -/
def jsSplitChar (sep : Char) (s : Str) : List Str :=
  match s with
  | [] => [[]]
  | c :: rest =>
    match jsSplitChar sep rest with
    | [] => [[c]]
    | t :: ts => if c = sep then [] :: t :: ts else (c :: t) :: ts

/-- `transformEmail`: split at `'@'`; with no (or an empty) domain return the
email unchanged; otherwise remove one digit from the local part if possible,
else one symbol, else apply the alternative transform, and rebuild
`newLocal@domain`. -/
def transformEmail (g : List ℕ) (email : Str) : Str :=
  let parts := jsSplitChar '@' email
  let localPart := parts.headD []
  let domain := parts.getD 1 []
  if parts.length < 2 ∨ domain = [] then email
  else
    let ((s1, changed1), g1) := removeOneDigit localPart g
    if changed1 then s1 ++ '@' :: domain
    else
      let ((s2, changed2), g2) := removeOneSymbol localPart g1
      if changed2 then s2 ++ '@' :: domain
      else
        let (s3, _) := applyAlternativeTransform localPart g2
        s3 ++ '@' :: domain

/-- Unreserved characters of `encodeURIComponent` (alphanumerics and
`- _ . ! ~ * ' ( )`; the apostrophe is written by code point). -/
def uriUnreserved (c : Char) : Bool :=
  c.isAlphanum || ['-', '_', '.', '!', '~', '*', Char.ofNat 39, '(', ')'].contains c

/-- Uppercase hex digit for `n < 16`. -/
def hexDigitChar (n : ℕ) : Char :=
  if n < 10 then Char.ofNat (48 + n) else Char.ofNat (55 + n)

/-- UTF-8 bytes of a code point. -/
def utf8Bytes (n : ℕ) : List ℕ :=
  if n < 128 then [n]
  else if n < 2048 then [192 + n / 64, 128 + n % 64]
  else if n < 65536 then [224 + n / 4096, 128 + (n / 64) % 64, 128 + n % 64]
  else [240 + n / 262144, 128 + (n / 4096) % 64, 128 + (n / 64) % 64, 128 + n % 64]

/-- JS `encodeURIComponent`: keep unreserved characters, percent-encode the
UTF-8 bytes of everything else. -/
def encodeURIComponent (s : Str) : Str :=
  (s.map (fun c =>
    if uriUnreserved c then [c]
    else (utf8Bytes c.toNat).map
      (fun b => ['%', hexDigitChar (b / 16), hexDigitChar (b % 16)]) |>.flatten)).flatten

/-- `mapISOToCountry` (test-mode revision): map an uppercased ISO code to the
full country name, defaulting to United States. -/
def mapISOToCountry (isoCode : Str) : Str :=
  let u := isoCode.map Char.toUpper
  if u = "US".data then "United States".data
  else if u = "BR".data then "Brazil".data
  else if u = "CA".data then "Canada".data
  else if u = "GB".data then "United Kingdom".data
  else if u = "AU".data then "Australia".data
  else "United States".data

/-! ### Order documents

One structure per revision shape, with the billing/shipping literals written
out separately exactly as the source does. -/

structure LineItem where
  variant_id : JSNum
  quantity : ℕ
deriving DecidableEq, Repr

/-- Address shape of the first `server.js` revision and of the static-address
revision (`part_002`, first script): `zip` is the number `0`. -/
structure AddrA where
  first_name : Str
  last_name : Str
  name : Str
  house_no : Str
  city : Str
  province : Str
  province_code : Str
  zip : JSNum
deriving DecidableEq, Repr

/-- Payment sub-object with the raw request amount (most revisions). -/
structure PaymentA where
  payment_gateway_id : Str
  amount : JVal
  gateway : Str
  type : Str
  boleto_link : Str
  boleto_code : Str
  boleto_limit_date : Str
deriving DecidableEq, Repr

structure CustomerA where
  email : Str
  first_name : Str
  last_name : Str
deriving DecidableEq, Repr

/-- Order document of the first `server.js` revision (faker/geo address) and
of the static-address revision, which share this shape. -/
structure OrderDataA where
  email : Str
  phone : Str
  currency : Str
  presentment_currency : Str
  subtotal_amount : JVal
  products_total_amount : JVal
  total_amount : JVal
  line_items : List LineItem
  billing_address : AddrA
  shipping_address : AddrA
  payment : PaymentA
  customer : CustomerA
  thank_you_page : Str
deriving DecidableEq, Repr

/-- Ambient per-request data of the first `server.js` revision: the
geo-derived city and the faker-generated province/zip/street (already run
through the source's `'N/A'` fallbacks), plus tomorrow's date. -/
structure AmbientA where
  city : Str
  province : Str
  zipCode : Str
  streetAddress : Str
  tomorrow : Str
deriving DecidableEq, Repr

/-- The `orderData` literal of the first `server.js` revision
(lines 162-221). -/
def orderDataA (currency : Str) (amb : AmbientA) (donationAmount variantId : JVal)
    (fullName firstName lastName email : Str) : OrderDataA :=
  { email := email
    phone := "0000000000".data
    currency := currency
    presentment_currency := currency
    subtotal_amount := donationAmount
    products_total_amount := donationAmount
    total_amount := donationAmount
    line_items := [{ variant_id := toNumber variantId, quantity := 1 }]
    billing_address :=
      { first_name := firstName
        last_name := lastName
        name := fullName
        house_no := amb.streetAddress
        city := amb.city
        province := amb.province
        province_code := amb.zipCode
        zip := .fin 0 }
    shipping_address :=
      { first_name := firstName
        last_name := lastName
        name := fullName
        house_no := amb.streetAddress
        city := amb.city
        province := amb.province
        province_code := amb.zipCode
        zip := .fin 0 }
    payment :=
      { payment_gateway_id := "cartpanda_pay".data
        amount := donationAmount
        gateway := "other".data
        type := "cc".data
        boleto_link := "N/A".data
        boleto_code := "N/A".data
        boleto_limit_date := amb.tomorrow }
    customer := { email := email, first_name := firstName, last_name := lastName }
    thank_you_page := "https://your-domain.com/cartpanda_return".data }

/-- The `orderData` literal of the static-address revision (`part_002` first
script, lines 115-160): same shape as `orderDataA` with `'N/A'`
placeholders. -/
def orderDataR1 (currency : Str) (tomorrow : Str) (donationAmount variantId : JVal)
    (fullName firstName lastName email : Str) : OrderDataA :=
  { email := email
    phone := "0000000000".data
    currency := currency
    presentment_currency := currency
    subtotal_amount := donationAmount
    products_total_amount := donationAmount
    total_amount := donationAmount
    line_items := [{ variant_id := toNumber variantId, quantity := 1 }]
    billing_address :=
      { first_name := firstName
        last_name := lastName
        name := fullName
        house_no := "N/A".data
        city := "N/A".data
        province := "N/A".data
        province_code := "N/A".data
        zip := .fin 0 }
    shipping_address :=
      { first_name := firstName
        last_name := lastName
        name := fullName
        house_no := "N/A".data
        city := "N/A".data
        province := "N/A".data
        province_code := "N/A".data
        zip := .fin 0 }
    payment :=
      { payment_gateway_id := "cartpanda_pay".data
        amount := donationAmount
        gateway := "other".data
        type := "cc".data
        boleto_link := "N/A".data
        boleto_code := "N/A".data
        boleto_limit_date := tomorrow }
    customer := { email := email, first_name := firstName, last_name := lastName }
    thank_you_page := "https://your-domain.com/cartpanda_return".data }

/-- Address shape of the test-mode revision (`part_000`). -/
structure AddrT where
  address1 : Str
  address2 : Str
  house_no : Str
  city : Str
  province : Str
  province_code : Str
  zip : Str
  first_name : Str
  last_name : Str
  name : Str
  country : Str
deriving DecidableEq, Repr

/-- Payment sub-object with an already-converted numeric amount
(test-mode revision). -/
structure PaymentT where
  payment_gateway_id : Str
  amount : JSNum
  gateway : Str
  type : Str
  boleto_link : Str
  boleto_code : Str
  boleto_limit_date : Str
deriving DecidableEq, Repr

/-- Order document of the test-mode revision (`part_000`). -/
structure OrderDataT where
  email : Str
  phone : Str
  currency : Str
  presentment_currency : Str
  subtotal_amount : JSNum
  products_total_amount : JSNum
  total_amount : JSNum
  cart_token : Str
  customer_token : Str
  line_items : List LineItem
  billing_address : AddrT
  shipping_address : AddrT
  payment : PaymentT
  customer : CustomerA
  client_details : Str
  order_note : Str
  thank_you_page : Str
deriving DecidableEq, Repr

/-- Ambient per-request data of the test-mode revision: user IP, geo
fields, faker fallbacks, tokens, random phone, user agent, order-note
stamp and tomorrow's date. -/
structure AmbientT where
  userIP : Str
  finalCountry : Str
  finalProvCode : Str
  finalCity : Str
  finalProv : Str
  finalZip : Str
  finalStreet : Str
  cartToken : Str
  customerToken : Str
  randomPhone : Str
  userAgent : Str
  orderNote : Str
  tomorrow : Str
deriving DecidableEq, Repr

/-- The `orderData` literal of the test-mode revision (`part_000`
lines 189-256). -/
def orderDataT (slug currency : Str) (amb : AmbientT)
    (finalDonationAmount finalVariantId : JSNum)
    (fullName firstName lastName email : Str) : OrderDataT :=
  { email := email
    phone := amb.randomPhone
    currency := currency
    presentment_currency := currency
    subtotal_amount := finalDonationAmount
    products_total_amount := finalDonationAmount
    total_amount := finalDonationAmount
    cart_token := amb.cartToken
    customer_token := amb.customerToken
    line_items := [{ variant_id := finalVariantId, quantity := 1 }]
    billing_address :=
      { address1 := amb.finalStreet
        address2 := []
        house_no := amb.finalStreet
        city := amb.finalCity
        province := amb.finalProv
        province_code := amb.finalProvCode
        zip := amb.finalZip
        first_name := firstName
        last_name := lastName
        name := fullName
        country := amb.finalCountry }
    shipping_address :=
      { address1 := amb.finalStreet
        address2 := []
        house_no := amb.finalStreet
        city := amb.finalCity
        province := amb.finalProv
        province_code := amb.finalProvCode
        zip := amb.finalZip
        first_name := firstName
        last_name := lastName
        name := fullName
        country := amb.finalCountry }
    payment :=
      { payment_gateway_id := "cartpanda_pay".data
        amount := finalDonationAmount
        gateway := "other".data
        type := "cc".data
        boleto_link := "N/A".data
        boleto_code := "N/A".data
        boleto_limit_date := amb.tomorrow }
    customer := { email := email, first_name := firstName, last_name := lastName }
    client_details :=
      "IP: ".data ++ amb.userIP ++ " | UA: ".data ++ amb.userAgent
    order_note := amb.orderNote
    thank_you_page :=
      "https://".data ++ slug ++ ".mycartpanda.com/cartpanda_return".data }

/-- Address shape of the mock revision (`part_001`). -/
structure AddrM where
  first_name : Str
  last_name : Str
  name : Str
  address1 : Str
  address2 : Str
  address : Str
  house_no : Str
  compartment : Str
  neighborhood : Str
  city : Str
  province : Str
  province_code : Str
  zip : JSNum
  company : Str
  phone : Str
deriving DecidableEq, Repr

structure ShippingInfo where
  price : ℕ
  source : Str
  title : Str
deriving DecidableEq, Repr

structure CustomerM where
  id : ℕ
  email : Str
  first_name : Str
  last_name : Str
  cpf : Str
  tags : List Str
deriving DecidableEq, Repr

/-- Order document of the mock revision (`part_001`). -/
structure OrderDataM where
  cart_token : Str
  currency : Str
  email : Str
  phone : Str
  presentment_currency : Str
  subtotal_amount : JVal
  products_total_amount : JVal
  total_amount : JVal
  payment_status : Str
  line_items : List LineItem
  billing_address : AddrM
  shipping_address : AddrM
  shipping : ShippingInfo
  payment : PaymentA
  customer : CustomerM
  thank_you_page : Str
deriving DecidableEq, Repr

/-- The `orderData` literal of the mock revision (`part_001`
lines 114-184). -/
def orderDataM (currency tomorrow : Str) (donationAmount variantId : JVal)
    (fullName firstName lastName email : Str) : OrderDataM :=
  let na : Str := "N/A".data
  { cart_token := "dummy_cart_token".data
    currency := currency
    email := email
    phone := "0000000000".data
    presentment_currency := currency
    subtotal_amount := donationAmount
    products_total_amount := donationAmount
    total_amount := donationAmount
    payment_status := "1".data
    line_items := [{ variant_id := toNumber variantId, quantity := 1 }]
    billing_address :=
      { first_name := firstName, last_name := lastName, name := fullName
        address1 := na, address2 := na, address := na, house_no := na
        compartment := na, neighborhood := na, city := na
        province := na, province_code := na, zip := .fin 0
        company := na, phone := na }
    shipping_address :=
      { first_name := firstName, last_name := lastName, name := fullName
        address1 := na, address2 := na, address := na, house_no := na
        compartment := na, neighborhood := na, city := na
        province := na, province_code := na, zip := .fin 0
        company := na, phone := na }
    shipping := { price := 0, source := na, title := na }
    payment :=
      { payment_gateway_id := "cartpanda_pay".data
        amount := donationAmount
        gateway := "other".data
        type := "cc".data
        boleto_link := na
        boleto_code := na
        boleto_limit_date := tomorrow }
    customer :=
      { id := 1, email := email, first_name := firstName, last_name := lastName
        cpf := na, tags := [] }
    thank_you_page := "https://your-domain.com/cartpanda_return".data }

/-- Address shape of the v1 revision (`part_002` second script). -/
structure AddrV where
  address1 : Str
  address2 : Str
  address : Str
  house_no : Str
  compartment : Str
  neighborhood : Str
  city : Str
  company : Str
  first_name : Str
  last_name : Str
  phone : Str
  province : Str
  zip : JSNum
  name : Str
  province_code : Str
deriving DecidableEq, Repr

structure DiscountInfo where
  value : ℕ
  amount : ℕ
  value_type : Str
  note : Str
deriving DecidableEq, Repr

structure CustomerV where
  id : ℕ
  email : Str
  first_name : Str
  last_name : Str
  cpf : ℕ
deriving DecidableEq, Repr

/-- Order document of the v1 revision (`part_002` second script). -/
structure OrderDataV where
  cart_token : Str
  currency : Str
  discount_code : Str
  email : Str
  phone : Str
  presentment_currency : Str
  subtotal_amount : JVal
  card_token : Str
  customer_token : Str
  order_discount : ℕ
  products_total_amount : JVal
  total_amount : JVal
  payment_status : Str
  line_items : List LineItem
  shipping_address : AddrV
  billing_address : AddrV
  shipping : ShippingInfo
  payment : PaymentA
  discount : DiscountInfo
  customer : CustomerV
  tags : List Str
deriving DecidableEq, Repr

/-- Ambient per-request data of the v1 revision. -/
structure AmbientV where
  finalCountry : Str
  finalProvCode : Str
  finalCity : Str
  finalProv : Str
  finalZip : Str
  finalStreet : Str
  cartToken : Str
  customerToken : Str
  randomPhone : Str
  tomorrow : Str
deriving DecidableEq, Repr

/-- The `orderData` literal of the v1 revision (`part_002` second script,
lines 440-536); `zip` is `Number(finalZip.replace(/\D/g, '') || '99999')`. -/
def orderDataV (currency : Str) (amb : AmbientV) (donationAmount variantId : JVal)
    (fullName firstName lastName email : Str) : OrderDataV :=
  let na : Str := "N/A".data
  let zipDigits := amb.finalZip.filter Char.isDigit
  let zipNum := jsStrToNum (if zipDigits = [] then "99999".data else zipDigits)
  { cart_token := amb.cartToken
    currency := currency
    discount_code := []
    email := email
    phone := amb.randomPhone
    presentment_currency := currency
    subtotal_amount := donationAmount
    card_token := "random-card-token".data
    customer_token := amb.customerToken
    order_discount := 0
    products_total_amount := donationAmount
    total_amount := donationAmount
    payment_status := "paid".data
    line_items := [{ variant_id := toNumber variantId, quantity := 1 }]
    shipping_address :=
      { address1 := amb.finalStreet, address2 := na, address := amb.finalStreet
        house_no := "123".data, compartment := na, neighborhood := na
        city := amb.finalCity, company := na
        first_name := firstName, last_name := lastName, phone := amb.randomPhone
        province := amb.finalProv, zip := zipNum, name := fullName
        province_code := amb.finalProvCode }
    billing_address :=
      { address1 := amb.finalStreet, address2 := na, address := amb.finalStreet
        house_no := "123".data, compartment := na, neighborhood := na
        city := amb.finalCity, company := na
        first_name := firstName, last_name := lastName, phone := amb.randomPhone
        province := amb.finalProv, zip := zipNum, name := fullName
        province_code := amb.finalProvCode }
    shipping :=
      { price := 0, source := "Donation".data, title := "No Shipping Needed".data }
    payment :=
      { payment_gateway_id := "random-payment-gateway-id".data
        amount := donationAmount
        gateway := "other".data
        type := "cc".data
        boleto_link := na
        boleto_code := na
        boleto_limit_date := amb.tomorrow }
    discount :=
      { value := 0, amount := 0, value_type := "fixed_amount".data
        note := "No discount used".data }
    customer :=
      { id := 0, email := email, first_name := firstName, last_name := lastName
        cpf := 123456789 }
    tags := ["Donation".data, "Auto-created".data] }

/-! ### Provider responses and HTTP handlers -/

/-- The nested `order` object of a create-order response. -/
structure OrderObj where
  id : Option JSNum
  checkout_link : Option Str
deriving DecidableEq, Repr

/-- A create-order response body (`apiResponse.data`). -/
structure CreatedOrder where
  order : Option OrderObj
  checkout_link : Option Str
deriving DecidableEq, Repr

/-- Outcome of the outbound `axios.post`: a 2xx body, or a thrown error
(network failure, timeout or non-2xx status) carrying the upstream error
text. -/
inductive ProvResult where
  | ok (co : CreatedOrder) : ProvResult
  | err (e : Str) : ProvResult

/-- JS truthiness of an optional string field (absent or `''` is falsy). -/
def truthyOptStr : Option Str → Bool
  | none => false
  | some s => s != []

/-- JS truthiness of an optional numeric field (absent, `0` or `NaN` is
falsy). -/
def truthyOptNum : Option JSNum → Bool
  | none => false
  | some x => x.truthy

/-- The synthesized checkout URL of the fallback branch. -/
def synthCheckoutUrl (slug : Str) (id : JSNum) : Str :=
  "https://".data ++ slug ++ ".mycartpanda.com/checkout?order_id=".data
    ++ jsNumToStr id

/-- The checkout-URL priority chain of `/create-donation-order`
(`server.js` lines 237-248): order-level `checkout_link`, then top-level
`checkout_link`, then a URL synthesized from `order.id`; otherwise the
explanatory 500 error. -/
def resolveCheckoutUrl (slug : Str) (co : CreatedOrder) : Except Str Str :=
  let ocl := co.order.bind OrderObj.checkout_link
  let oid := co.order.bind OrderObj.id
  if truthyOptStr ocl then .ok (ocl.getD [])
  else if truthyOptStr co.checkout_link then .ok (co.checkout_link.getD [])
  else if truthyOptNum oid then .ok (synthCheckoutUrl slug (oid.getD .nan))
  else .error "No checkout URL returned from CartPanda. Cannot redirect to payment.".data

/-- HTTP response of the order-creation endpoints. -/
inductive HResp where
  | okUrl (url : Str) : HResp
  | badRequest (msg : Str) : HResp
  | serverError (msg : Str) : HResp
deriving DecidableEq, Repr

/-- Request body of the first `server.js` revision. -/
structure ReqA where
  donationAmount : JVal
  variantId : JVal
  fullName : Str
  email : Str

/-- `POST /create-donation-order` of the first `server.js` revision
(lines 85-257).  Returns the HTTP response together with the list of
outbound provider calls made while serving the request. -/
def handlerA (slug currency : Str) (amb : AmbientA)
    (prov : OrderDataA → ProvResult) (req : ReqA) : HResp × List OrderDataA :=
  if !req.donationAmount.truthy || (toNumber req.donationAmount).isNan
      || (toNumber req.donationAmount).leZero then
    (.badRequest "Invalid donation amount".data, [])
  else if !req.variantId.truthy || (toNumber req.variantId).isNan then
    (.badRequest "Missing or invalid variant ID".data, [])
  else if req.fullName = [] ∨ jsTrim req.fullName = [] then
    (.badRequest "Full name is required".data, [])
  else if req.email = [] then
    (.badRequest "Email is required".data, [])
  else
    let nameParts := jsSplitWs (jsTrim req.fullName)
    let firstName := nameParts.headD []
    let lastName :=
      if nameParts.length > 1 then List.intercalate " ".data (nameParts.drop 1) else []
    let od := orderDataA currency amb req.donationAmount req.variantId
      req.fullName firstName lastName req.email
    match prov od with
    | .ok co =>
      match resolveCheckoutUrl slug co with
      | .ok u => (.okUrl u, [od])
      | .error m => (.serverError m, [od])
    | .err _ => (.serverError "Could not create order, please try again.".data, [od])

/-- Environment of the test-mode revision (`part_000`). -/
structure EnvT where
  slug : Str
  currency : Str
  testMode : Option Str
  donationVariantId : Option Str

/-- An environment variable read as a request value: absent is
`undefined`, otherwise the string. -/
def envJVal : Option Str → JVal
  | none => .undef
  | some s => .str s

/-- `POST /create-donation-order` of the test-mode revision (`part_000`
lines 105-292): when `TEST_MODE === 'true'`, the submitted amount is
replaced by `1` and the submitted variant by `DONATION_VARIANT_ID` before
conversion, validation and dispatch. -/
def handlerT (env : EnvT) (amb : AmbientT)
    (prov : OrderDataT → ProvResult) (req : ReqA) : HResp × List OrderDataT :=
  let donationAmount :=
    if env.testMode = some "true".data then JVal.num (.fin 1) else req.donationAmount
  let variantId :=
    if env.testMode = some "true".data then envJVal env.donationVariantId
    else req.variantId
  let finalDonationAmount := toNumber donationAmount
  let finalVariantId := toNumber variantId
  if !finalDonationAmount.truthy || finalDonationAmount.isNan
      || finalDonationAmount.leZero then
    (.badRequest "Invalid donation amount".data, [])
  else if !finalVariantId.truthy || finalVariantId.isNan then
    (.badRequest "Missing or invalid variant ID".data, [])
  else if req.fullName = [] ∨ jsTrim req.fullName = [] then
    (.badRequest "Full name is required".data, [])
  else if req.email = [] then
    (.badRequest "Email is required".data, [])
  else
    let nameParts := jsSplitWs (jsTrim req.fullName)
    let firstName := nameParts.headD []
    let lastName :=
      if nameParts.length > 1 then List.intercalate " ".data (nameParts.drop 1) else []
    let od := orderDataT env.slug env.currency amb finalDonationAmount finalVariantId
      req.fullName firstName lastName req.email
    match prov od with
    | .ok co =>
      match resolveCheckoutUrl env.slug co with
      | .ok u => (.okUrl u, [od])
      | .error m => (.serverError m, [od])
    | .err _ => (.serverError "Could not create order, please try again.".data, [od])

/-- Request body of the link-builder revision (second `server.js` script). -/
structure ReqB where
  variantId : JVal
  email : Str
  fullName : Str
  phoneNumber : Str

/-- `POST /create-donation-order` of the link-builder revision (second
`server.js` script, lines 592-633): no outbound call; the checkout link is
assembled directly, embedding the transformed email. -/
def handlerB (slug : Str) (g : List ℕ) (req : ReqB) : HResp :=
  if !req.variantId.truthy || (toNumber req.variantId).isNan then
    .badRequest "Missing or invalid variant ID.".data
  else if req.email = [] then
    .badRequest "Missing or invalid email.".data
  else if req.fullName = [] ∨ jsTrim req.fullName = [] then
    .badRequest "Missing or invalid full name.".data
  else if req.phoneNumber = [] ∨ jsTrim req.phoneNumber = [] then
    .badRequest "Missing or invalid phone number.".data
  else
    let finalEmail := transformEmail g req.email
    let encodedEmail := encodeURIComponent finalEmail
    let (first, last) := splitFullName req.fullName
    let encodedFirstName := encodeURIComponent first
    let encodedLastName := encodeURIComponent last
    let encodedPhoneNumber := encodeURIComponent req.phoneNumber
    .okUrl ("https://".data ++ slug ++ ".mycartpanda.com/checkout/".data
      ++ jsValToStr req.variantId ++ ":1?email=".data ++ encodedEmail
      ++ "&first_name=".data ++ encodedFirstName
      ++ "&last_name=".data ++ encodedLastName
      ++ "&phone=".data ++ encodedPhoneNumber)

/-- A fetched order in the status-verification endpoint: the two status
fields the verifier inspects (values kept as raw JSON values so that the
strict `===` comparisons are meaningful). -/
structure FetchedOrder where
  payment_status : Option JVal
  status_id : Option JVal
deriving DecidableEq, Repr

/-- `GET /cartpanda_return` (`server.js` lines 260-284): redirect to
`/thanks.html` exactly when the looked-up order has `payment_status === 3`
or `status_id === '3'`; missing `order_id` or a failed lookup redirects to
`/error.html`. -/
def cartpandaReturn (lookup : Str → Except Str FetchedOrder)
    (orderId : Option Str) : Str :=
  match orderId with
  | none => "/error.html".data
  | some oid =>
    if oid = [] then "/error.html".data
    else
      match lookup oid with
      | .error _ => "/error.html".data
      | .ok od =>
        if od.payment_status = some (.num (.fin 3)) ∨ od.status_id = some (.str ['3'])
        then "/thanks.html".data
        else "/error.html".data

/-- A fetched order of the v1 revision: the status fields live on the
nested `order` object. -/
structure FetchedOrderV1 where
  order : Option FetchedOrder
deriving DecidableEq, Repr

/-- Modelled from the spec: the paid test of the v1 `GET /cartpanda_return`
(`part_002` second script) is truncated in the source right after
`orderData?.order?.payment_status === 'paid' ||`; per the spec the v1 paid
sentinel is the string `'paid'` (or `'3'`), so the missing disjunct is
modelled as `status_id === '3'`. -/
def isPaidV1 (fo : FetchedOrderV1) : Bool :=
  decide ((fo.order.bind FetchedOrder.payment_status) = some (.str "paid".data)
    ∨ (fo.order.bind FetchedOrder.status_id) = some (.str ['3']))

/-- Modelled from the spec: the v1 `GET /cartpanda_return` flow — same
skeleton as the complete revisions, with the v1 paid test. -/
def cartpandaReturnV1 (lookup : Str → Except Str FetchedOrderV1)
    (orderId : Option Str) : Str :=
  match orderId with
  | none => "/error.html".data
  | some oid =>
    if oid = [] then "/error.html".data
    else
      match lookup oid with
      | .error _ => "/error.html".data
      | .ok fo => if isPaidV1 fo then "/thanks.html".data else "/error.html".data

/-- The head character of a string is whitespace. -/
def headWs : Str → Bool
  | [] => false
  | c :: _ => wsChar c

/-- No trailing whitespace: the last character, when present, is not
whitespace. -/
def lastNotWs (l : Str) : Prop := ∀ c, l.getLast? = some c → wsChar c = false

/-- The validation conditions of `/create-donation-order` (first `server.js`
revision) all pass. -/
def validReqA (req : ReqA) : Prop :=
  (!req.donationAmount.truthy || (toNumber req.donationAmount).isNan
    || (toNumber req.donationAmount).leZero) = false
  ∧ (!req.variantId.truthy || (toNumber req.variantId).isNan) = false
  ∧ ¬(req.fullName = [] ∨ jsTrim req.fullName = [])
  ∧ req.email ≠ []

instance (req : ReqA) : Decidable (validReqA req) := by
  unfold validReqA; infer_instance

/-- The validation conditions of `/create-donation-order` (link-builder
revision) all pass. -/
def validReqB (req : ReqB) : Prop :=
  (!req.variantId.truthy || (toNumber req.variantId).isNan) = false
  ∧ req.email ≠ []
  ∧ ¬(req.fullName = [] ∨ jsTrim req.fullName = [])
  ∧ ¬(req.phoneNumber = [] ∨ jsTrim req.phoneNumber = [])

instance (req : ReqB) : Decidable (validReqB req) := by
  unfold validReqB; infer_instance

/-- C1: for every successful provider response, `/create-donation-order`
resolves the returned `checkoutUrl` by the fixed priority chain: a (truthy)
order-level `checkout_link` is returned verbatim; otherwise a (truthy)
top-level `checkout_link`; otherwise, if the response carries a (truthy)
order id, the URL `https://{shop}.mycartpanda.com/checkout?order_id={id}`
synthesized from the order id and the shop slug. -/
theorem claim_C1_checkout_url_priority (slug currency : Str) (amb : AmbientA)
    (prov : OrderDataA → ProvResult) (req : ReqA) (co : CreatedOrder)
    (hv : validReqA req) (hp : ∀ od, prov od = .ok co) :
    (∀ l, co.order.bind OrderObj.checkout_link = some l → l ≠ [] →
      (handlerA slug currency amb prov req).1 = .okUrl l)
    ∧ (truthyOptStr (co.order.bind OrderObj.checkout_link) = false →
      ∀ l, co.checkout_link = some l → l ≠ [] →
        (handlerA slug currency amb prov req).1 = .okUrl l)
    ∧ (truthyOptStr (co.order.bind OrderObj.checkout_link) = false →
      truthyOptStr co.checkout_link = false →
      ∀ i, co.order.bind OrderObj.id = some i → i.truthy = true →
        (handlerA slug currency amb prov req).1 =
          .okUrl ("https://".data ++ slug
            ++ ".mycartpanda.com/checkout?order_id=".data ++ jsNumToStr i)) := by
  obtain ⟨h1, h2, h3, h4⟩ := hv
  refine ⟨?_, ?_, ?_⟩
  · intro l hl hlne
    have ht : truthyOptStr (some l) = true := by simp [truthyOptStr, hlne]
    simp [handlerA, h1, h2, h3, h4, hp, resolveCheckoutUrl, hl, ht]
  · intro hf l hl hlne
    have ht : truthyOptStr (some l) = true := by simp [truthyOptStr, hlne]
    simp [handlerA, h1, h2, h3, h4, hp, resolveCheckoutUrl, hf, hl, ht]
  · intro hf1 hf2 i hi hit
    have ht : truthyOptNum (some i) = true := by simp [truthyOptNum, hit]
    simp [handlerA, h1, h2, h3, h4, hp, resolveCheckoutUrl, hf1, hf2, hi, ht,
      synthCheckoutUrl]

/-- C1 witness: a concrete valid request against a provider returning only
an order id yields the synthesized checkout URL. -/
theorem claim_C1_witness :
    (handlerA "shop".data "usd".data ⟨"c".data, "p".data, "z".data, "s".data, "d".data⟩
      (fun _ => .ok ⟨some ⟨some (.fin 42), none⟩, none⟩)
      ⟨.num (.fin 5), .num (.fin 7), "Jo Do".data, "a@b.c".data⟩).1 =
      .okUrl "https://shop.mycartpanda.com/checkout?order_id=42".data := by
  have h := claim_C1_checkout_url_priority "shop".data "usd".data
    ⟨"c".data, "p".data, "z".data, "s".data, "d".data⟩
    (fun _ => .ok ⟨some ⟨some (.fin 42), none⟩, none⟩)
    ⟨.num (.fin 5), .num (.fin 7), "Jo Do".data, "a@b.c".data⟩
    ⟨some ⟨some (.fin 42), none⟩, none⟩ (by decide) (fun _ => rfl)
  have := h.2.2 (by decide) (by decide) (.fin 42) rfl (by decide)
  simpa using this

/-- C2: a request whose donation amount is missing, non-numeric, or `≤ 0`
is answered 400 with a descriptive error, and no outbound provider call is
made (the call trace is empty). -/
theorem claim_C2_invalid_amount_rejected (slug currency : Str) (amb : AmbientA)
    (prov : OrderDataA → ProvResult) (req : ReqA)
    (h : req.donationAmount = .undef ∨ (toNumber req.donationAmount).isNan = true
      ∨ ∃ q, toNumber req.donationAmount = .fin q ∧ q ≤ 0) :
    handlerA slug currency amb prov req =
      (.badRequest "Invalid donation amount".data, []) := by
  have hc : (!req.donationAmount.truthy || (toNumber req.donationAmount).isNan
      || (toNumber req.donationAmount).leZero) = true := by
    rcases h with h | h | ⟨q, hq, hq0⟩
    · simp [h, JVal.truthy]
    · simp [h]
    · simp [hq, JSNum.leZero, hq0]
  simp [handlerA, hc]

/-- C2 witness: the amount `0` (and separately a non-numeric amount) is
rejected with no provider call. -/
theorem claim_C2_witness :
    handlerA "shop".data "usd".data
      ⟨"c".data, "p".data, "z".data, "s".data, "d".data⟩ (fun _ => .err [])
      ⟨.num (.fin 0), .num (.fin 7), "Jo Do".data, "a@b.c".data⟩ =
      (.badRequest "Invalid donation amount".data, []) :=
  claim_C2_invalid_amount_rejected _ _ _ _ _
    (Or.inr (Or.inr ⟨0, rfl, le_refl 0⟩))

/-- C6: a successful provider response with no truthy order-level checkout
link, no truthy top-level checkout link and no truthy order id is answered
500 with the explanatory message. -/
theorem claim_C6_no_checkout_url_500 (slug currency : Str) (amb : AmbientA)
    (prov : OrderDataA → ProvResult) (req : ReqA) (co : CreatedOrder)
    (hv : validReqA req) (hp : ∀ od, prov od = .ok co)
    (hf1 : truthyOptStr (co.order.bind OrderObj.checkout_link) = false)
    (hf2 : truthyOptStr co.checkout_link = false)
    (hf3 : truthyOptNum (co.order.bind OrderObj.id) = false) :
    (handlerA slug currency amb prov req).1 =
      .serverError
        "No checkout URL returned from CartPanda. Cannot redirect to payment.".data := by
  obtain ⟨h1, h2, h3, h4⟩ := hv
  simp [handlerA, h1, h2, h3, h4, hp, resolveCheckoutUrl, hf1, hf2, hf3]

/-- C6 witness: a response with an empty-string top-level link, an absent
order-level link and order id `0` yields the explanatory 500. -/
theorem claim_C6_witness :
    (handlerA "shop".data "usd".data
      ⟨"c".data, "p".data, "z".data, "s".data, "d".data⟩
      (fun _ => .ok ⟨some ⟨some (.fin 0), none⟩, some []⟩)
      ⟨.num (.fin 5), .num (.fin 7), "Jo Do".data, "a@b.c".data⟩).1 =
      .serverError
        "No checkout URL returned from CartPanda. Cannot redirect to payment.".data :=
  claim_C6_no_checkout_url_500 _ _ _ _ _ ⟨some ⟨some (.fin 0), none⟩, some []⟩
    (by decide) (fun _ => rfl) (by decide) (by decide) (by decide)

/-- C7: when the outbound provider call fails (network error, timeout or
non-2xx), the endpoint answers 500 with the fixed generic message — the
same constant for every upstream error text — and exactly one outbound
call was made (no retry). -/
theorem claim_C7_provider_failure_500 (slug currency : Str) (amb : AmbientA)
    (errOf : OrderDataA → Str) (prov : OrderDataA → ProvResult) (req : ReqA)
    (hv : validReqA req) (hp : ∀ od, prov od = .err (errOf od)) :
    (handlerA slug currency amb prov req).1 =
      .serverError "Could not create order, please try again.".data
    ∧ (handlerA slug currency amb prov req).2.length = 1 := by
  obtain ⟨h1, h2, h3, h4⟩ := hv
  constructor <;> simp [handlerA, h1, h2, h3, h4, hp]

/-- C7 witness: a failing provider call yields the fixed generic 500 and a
single outbound call, for a concrete upstream error text. -/
theorem claim_C7_witness :
    (handlerA "shop".data "usd".data
      ⟨"c".data, "p".data, "z".data, "s".data, "d".data⟩
      (fun _ => .err "ECONNRESET".data)
      ⟨.num (.fin 5), .num (.fin 7), "Jo Do".data, "a@b.c".data⟩).1 =
      .serverError "Could not create order, please try again.".data
    ∧ (handlerA "shop".data "usd".data
      ⟨"c".data, "p".data, "z".data, "s".data, "d".data⟩
      (fun _ => .err "ECONNRESET".data)
      ⟨.num (.fin 5), .num (.fin 7), "Jo Do".data, "a@b.c".data⟩).2.length = 1 :=
  claim_C7_provider_failure_500 _ _ _ (fun _ => "ECONNRESET".data) _ _
    (by decide) (fun _ => rfl)

/-- C3: the `/cartpanda_return` verifier classifies an order paid exactly
when `payment_status` strictly equals the number `3` or `status_id` strictly
equals the string `'3'` (and, in the spec-modelled v1 revision, when a
status field equals the v1 string sentinel), redirecting to the thanks page
when paid and to the error page for any other status value, a missing or
empty `order_id`, or a failed lookup. -/
theorem claim_C3_return_verifier (lookup : Str → Except Str FetchedOrder)
    (lookupV1 : Str → Except Str FetchedOrderV1) :
    (∀ oid od, oid ≠ [] → lookup oid = .ok od →
      (cartpandaReturn lookup (some oid) = "/thanks.html".data ↔
        (od.payment_status = some (.num (.fin 3)) ∨ od.status_id = some (.str ['3']))))
    ∧ (∀ oid od, oid ≠ [] → lookup oid = .ok od →
      ¬(od.payment_status = some (.num (.fin 3)) ∨ od.status_id = some (.str ['3'])) →
      cartpandaReturn lookup (some oid) = "/error.html".data)
    ∧ cartpandaReturn lookup none = "/error.html".data
    ∧ cartpandaReturn lookup (some []) = "/error.html".data
    ∧ (∀ oid e, oid ≠ [] → lookup oid = .error e →
      cartpandaReturn lookup (some oid) = "/error.html".data)
    ∧ (∀ oid fo, oid ≠ [] → lookupV1 oid = .ok fo →
      (cartpandaReturnV1 lookupV1 (some oid) = "/thanks.html".data ↔ isPaidV1 fo = true))
    ∧ (∀ oid e, oid ≠ [] → lookupV1 oid = .error e →
      cartpandaReturnV1 lookupV1 (some oid) = "/error.html".data) := by
  refine ⟨?_, ?_, rfl, rfl, ?_, ?_, ?_⟩
  · intro oid od hne hok
    constructor
    · intro hth
      by_contra hpaid
      simp [cartpandaReturn, hne, hok, hpaid] at hth
    · intro hpaid
      simp [cartpandaReturn, hne, hok, hpaid]
  · intro oid od hne hok hpaid
    simp [cartpandaReturn, hne, hok, hpaid]
  · intro oid e hne herr
    simp [cartpandaReturn, hne, herr]
  · intro oid fo hne hok
    constructor
    · intro hth
      by_contra hpaid
      simp [cartpandaReturnV1, hne, hok, hpaid] at hth
    · intro hpaid
      simp [cartpandaReturnV1, hne, hok, hpaid]
  · intro oid e hne herr
    simp [cartpandaReturnV1, hne, herr]

/-- C3 witness: a paid lookup (`payment_status === 3`) redirects to the
thanks page. -/
theorem claim_C3_witness :
    cartpandaReturn (fun _ => .ok ⟨some (.num (.fin 3)), none⟩) (some "9".data)
      = "/thanks.html".data :=
  ((claim_C3_return_verifier (fun _ => .ok ⟨some (.num (.fin 3)), none⟩)
    (fun _ => .error [])).1 "9".data ⟨some (.num (.fin 3)), none⟩
    (by decide) rfl).mpr (Or.inl rfl)

/-- C4: in the test-mode revision, when `TEST_MODE` is the string `"true"`
the handler's behaviour is independent of the submitted donation amount and
variant id, and every dispatched order carries amount `1` and the
environment-configured test variant id. -/
theorem claim_C4_test_mode_override (env : EnvT) (amb : AmbientT)
    (prov : OrderDataT → ProvResult)
    (h : env.testMode = some "true".data) :
    (∀ da vi da' vi' fn em,
      handlerT env amb prov ⟨da, vi, fn, em⟩ = handlerT env amb prov ⟨da', vi', fn, em⟩)
    ∧ (∀ req od, od ∈ (handlerT env amb prov req).2 →
      od.subtotal_amount = .fin 1 ∧ od.products_total_amount = .fin 1
      ∧ od.total_amount = .fin 1 ∧ od.payment.amount = .fin 1
      ∧ od.line_items = [⟨toNumber (envJVal env.donationVariantId), 1⟩]) := by
  constructor
  · intro da vi da' vi' fn em
    simp [handlerT, h]
  · intro req od hmem
    simp only [handlerT, h, reduceIte] at hmem
    split at hmem
    · simp at hmem
    · split at hmem
      · simp at hmem
      · split at hmem
        · simp at hmem
        · split at hmem
          · simp at hmem
          · split at hmem
            · split at hmem <;>
              · simp at hmem
                subst hmem
                exact ⟨rfl, rfl, rfl, rfl, rfl⟩
            · simp at hmem
              subst hmem
              exact ⟨rfl, rfl, rfl, rfl, rfl⟩

/-- C4 witness: with `TEST_MODE="true"`, a request submitting amount 999
and variant 123 dispatches an order with amount 1 and the environment's
variant 77; and the handler output is unchanged when the submitted amount
and variant change. -/
theorem claim_C4_witness :
    (handlerT ⟨"shop".data, "USD".data, some "true".data, some "77".data⟩
        ⟨"i".data, "co".data, "pc".data, "ci".data, "pr".data, "z".data, "st".data,
          "ct".data, "cu".data, "ph".data, "ua".data, "on".data, "d".data⟩
        (fun _ => .err [])
        ⟨.num (.fin 999), .num (.fin 123), "Jo Do".data, "a@b.c".data⟩
      = handlerT ⟨"shop".data, "USD".data, some "true".data, some "77".data⟩
        ⟨"i".data, "co".data, "pc".data, "ci".data, "pr".data, "z".data, "st".data,
          "ct".data, "cu".data, "ph".data, "ua".data, "on".data, "d".data⟩
        (fun _ => .err [])
        ⟨.num (.fin 5), .str "junk".data, "Jo Do".data, "a@b.c".data⟩)
    ∧ ∀ od ∈ (handlerT ⟨"shop".data, "USD".data, some "true".data, some "77".data⟩
        ⟨"i".data, "co".data, "pc".data, "ci".data, "pr".data, "z".data, "st".data,
          "ct".data, "cu".data, "ph".data, "ua".data, "on".data, "d".data⟩
        (fun _ => .err [])
        ⟨.num (.fin 999), .num (.fin 123), "Jo Do".data, "a@b.c".data⟩).2,
      od.total_amount = .fin 1
      ∧ od.line_items = [⟨toNumber (envJVal (some "77".data)), 1⟩] := by
  have h := claim_C4_test_mode_override
    ⟨"shop".data, "USD".data, some "true".data, some "77".data⟩
    ⟨"i".data, "co".data, "pc".data, "ci".data, "pr".data, "z".data, "st".data,
      "ct".data, "cu".data, "ph".data, "ua".data, "on".data, "d".data⟩
    (fun _ => .err []) rfl
  refine ⟨h.1 _ _ _ _ _ _, fun od hmem => ?_⟩
  have h2 := h.2 _ od hmem
  exact ⟨h2.2.2.1, h2.2.2.2.2⟩

/-- C8: every order document built by the order-creating revisions has
subtotal, products-total, total and payment amounts all equal to the
donation amount, and a single line item of quantity 1 with the validated
variant id. -/
theorem claim_C8_order_totals_invariant :
    (∀ currency amb da vi fn fi la em,
      (orderDataA currency amb da vi fn fi la em).subtotal_amount = da
      ∧ (orderDataA currency amb da vi fn fi la em).products_total_amount = da
      ∧ (orderDataA currency amb da vi fn fi la em).total_amount = da
      ∧ (orderDataA currency amb da vi fn fi la em).payment.amount = da
      ∧ (orderDataA currency amb da vi fn fi la em).line_items
        = [⟨toNumber vi, 1⟩])
    ∧ (∀ currency tm da vi fn fi la em,
      (orderDataR1 currency tm da vi fn fi la em).subtotal_amount = da
      ∧ (orderDataR1 currency tm da vi fn fi la em).products_total_amount = da
      ∧ (orderDataR1 currency tm da vi fn fi la em).total_amount = da
      ∧ (orderDataR1 currency tm da vi fn fi la em).payment.amount = da
      ∧ (orderDataR1 currency tm da vi fn fi la em).line_items
        = [⟨toNumber vi, 1⟩])
    ∧ (∀ slug currency amb fda fvi fn fi la em,
      (orderDataT slug currency amb fda fvi fn fi la em).subtotal_amount = fda
      ∧ (orderDataT slug currency amb fda fvi fn fi la em).products_total_amount = fda
      ∧ (orderDataT slug currency amb fda fvi fn fi la em).total_amount = fda
      ∧ (orderDataT slug currency amb fda fvi fn fi la em).payment.amount = fda
      ∧ (orderDataT slug currency amb fda fvi fn fi la em).line_items
        = [⟨fvi, 1⟩])
    ∧ (∀ currency tm da vi fn fi la em,
      (orderDataM currency tm da vi fn fi la em).subtotal_amount = da
      ∧ (orderDataM currency tm da vi fn fi la em).products_total_amount = da
      ∧ (orderDataM currency tm da vi fn fi la em).total_amount = da
      ∧ (orderDataM currency tm da vi fn fi la em).payment.amount = da
      ∧ (orderDataM currency tm da vi fn fi la em).line_items
        = [⟨toNumber vi, 1⟩])
    ∧ (∀ currency amb da vi fn fi la em,
      (orderDataV currency amb da vi fn fi la em).subtotal_amount = da
      ∧ (orderDataV currency amb da vi fn fi la em).products_total_amount = da
      ∧ (orderDataV currency amb da vi fn fi la em).total_amount = da
      ∧ (orderDataV currency amb da vi fn fi la em).payment.amount = da
      ∧ (orderDataV currency amb da vi fn fi la em).line_items
        = [⟨toNumber vi, 1⟩]) :=
  ⟨fun _ _ _ _ _ _ _ _ => ⟨rfl, rfl, rfl, rfl, rfl⟩,
   fun _ _ _ _ _ _ _ _ => ⟨rfl, rfl, rfl, rfl, rfl⟩,
   fun _ _ _ _ _ _ _ _ _ => ⟨rfl, rfl, rfl, rfl, rfl⟩,
   fun _ _ _ _ _ _ _ _ => ⟨rfl, rfl, rfl, rfl, rfl⟩,
   fun _ _ _ _ _ _ _ _ => ⟨rfl, rfl, rfl, rfl, rfl⟩⟩

/-- C10: in every order-creating revision, the billing and shipping
addresses of every built order document are field-for-field identical. -/
theorem claim_C10_billing_eq_shipping :
    (∀ currency amb da vi fn fi la em,
      (orderDataA currency amb da vi fn fi la em).billing_address
        = (orderDataA currency amb da vi fn fi la em).shipping_address)
    ∧ (∀ currency tm da vi fn fi la em,
      (orderDataR1 currency tm da vi fn fi la em).billing_address
        = (orderDataR1 currency tm da vi fn fi la em).shipping_address)
    ∧ (∀ slug currency amb fda fvi fn fi la em,
      (orderDataT slug currency amb fda fvi fn fi la em).billing_address
        = (orderDataT slug currency amb fda fvi fn fi la em).shipping_address)
    ∧ (∀ currency tm da vi fn fi la em,
      (orderDataM currency tm da vi fn fi la em).billing_address
        = (orderDataM currency tm da vi fn fi la em).shipping_address)
    ∧ (∀ currency amb da vi fn fi la em,
      (orderDataV currency amb da vi fn fi la em).billing_address
        = (orderDataV currency amb da vi fn fi la em).shipping_address) :=
  ⟨fun _ _ _ _ _ _ _ _ => rfl, fun _ _ _ _ _ _ _ _ => rfl,
   fun _ _ _ _ _ _ _ _ _ => rfl, fun _ _ _ _ _ _ _ _ => rfl,
   fun _ _ _ _ _ _ _ _ => rfl⟩

theorem splitOnWs_ne_nil (l : Str) : splitOnWs l ≠ [] := by
  induction l with
  | nil => simp [splitOnWs]
  | cons c rest ih =>
    cases hs : splitOnWs rest with
    | nil => exact absurd hs ih
    | cons t ts =>
      cases hc : wsChar c <;> simp [splitOnWs, hs, hc]

theorem jsSplitWs_cons_cons (c d : Char) (r : Str) :
    jsSplitWs (c :: d :: r) =
      if wsChar c then (if wsChar d then jsSplitWs (d :: r) else [] :: jsSplitWs (d :: r))
      else
        match jsSplitWs (d :: r) with
        | [] => [[c]]
        | t :: ts => (c :: t) :: ts := rfl

theorem jsSplitWs_single (c : Char) :
    jsSplitWs [c] = if wsChar c then [[], []] else [[c]] := by
  cases hc : wsChar c <;> simp [jsSplitWs, hc]

theorem jsSplitWs_ne_nil (l : Str) : jsSplitWs l ≠ [] := by
  induction l with
  | nil => simp [jsSplitWs]
  | cons c rest ih =>
    cases rest with
    | nil => cases hc : wsChar c <;> simp [jsSplitWs_single, hc]
    | cons d r =>
      rw [jsSplitWs_cons_cons]
      cases hc : wsChar c
      · cases hs : jsSplitWs (d :: r) with
        | nil => exact absurd hs ih
        | cons t ts => simp [hs]
      · cases hd : wsChar d <;> simp [ih]

theorem splitOnWs_cons_ws {c : Char} (r : Str) (h : wsChar c = true) :
    splitOnWs (c :: r) = [] :: splitOnWs r := by
  cases hs : splitOnWs r with
  | nil => exact absurd hs (splitOnWs_ne_nil r)
  | cons t ts => simp [splitOnWs, hs, h]

theorem splitOnWs_cons_not {c : Char} (r : Str) (h : wsChar c = false) :
    ∃ t ts, splitOnWs r = t :: ts ∧ splitOnWs (c :: r) = (c :: t) :: ts := by
  cases hs : splitOnWs r with
  | nil => exact absurd hs (splitOnWs_ne_nil r)
  | cons t ts => exact ⟨t, ts, rfl, by simp [splitOnWs, hs, h]⟩

theorem head?_dropWhile_ws (l : Str) (c : Char)
    (h : (l.dropWhile wsChar).head? = some c) : wsChar c = false := by
  induction l with
  | nil => simp at h
  | cons a r ih =>
    cases ha : wsChar a
    · simp [List.dropWhile_cons, ha] at h
      rw [← h]; exact ha
    · simp [List.dropWhile_cons, ha] at h
      exact ih h

theorem headWs_dropWhile (l : Str) : headWs (l.dropWhile wsChar) = false := by
  cases hd : (l.dropWhile wsChar) with
  | nil => rfl
  | cons c r =>
    have : (l.dropWhile wsChar).head? = some c := by rw [hd]; rfl
    simpa [headWs] using head?_dropWhile_ws l c this

theorem headWs_jsTrim (s : Str) : headWs (jsTrim s) = false :=
  headWs_dropWhile _

theorem lastNotWs_jsTrim (s : Str) : lastNotWs (jsTrim s) := by
  intro c hc
  set t1 : Str := (s.reverse.dropWhile wsChar).reverse with ht1
  have hlast1 : lastNotWs t1 := by
    intro a ha
    rw [List.getLast?_eq_head?_reverse] at ha
    rw [ht1, List.reverse_reverse] at ha
    exact head?_dropWhile_ws _ _ ha
  by_cases hne : jsTrim s = []
  · rw [hne] at hc; simp at hc
  · have hdec : t1 = t1.takeWhile wsChar ++ jsTrim s := by
      rw [jsTrim]
      exact (List.takeWhile_append_dropWhile ..).symm
    have heq : t1.getLast? = (jsTrim s).getLast? := by
      rw [hdec]
      exact List.getLast?_append_of_ne_nil _ hne
    exact hlast1 c (by rw [heq]; exact hc)

theorem jsSplitWs_spec (l : Str) (hlast : lastNotWs l) :
    (headWs l = false → l ≠ [] → jsSplitWs l = wsTokens l)
    ∧ (headWs l = true → jsSplitWs l = [] :: wsTokens l) := by
  induction l with
  | nil =>
    exact ⟨fun _ h => absurd rfl h, fun h => by simp [headWs] at h⟩
  | cons c rest ih =>
    cases rest with
    | nil =>
      cases hc : wsChar c
      · refine ⟨fun _ _ => ?_, fun h => by simp [headWs, hc] at h⟩
        simp [jsSplitWs_single, hc, wsTokens, splitOnWs, splitOnWs_cons_not, hc]
      · have := hlast c (by simp)
        rw [hc] at this
        simp at this
    | cons d r =>
      have hlr : lastNotWs (d :: r) := by
        intro a ha
        exact hlast a (by rw [List.getLast?_cons_cons]; exact ha)
      have ihh := ih hlr
      cases hc : wsChar c
      · -- non-whitespace head
        refine ⟨fun _ _ => ?_, fun h => by simp [headWs, hc] at h⟩
        obtain ⟨t, ts, hsp, hspc⟩ := splitOnWs_cons_not (d :: r) hc
        rw [jsSplitWs_cons_cons, hc]
        simp only [Bool.false_eq_true, if_false]
        cases hd : wsChar d
        · have hjs : jsSplitWs (d :: r) = wsTokens (d :: r) :=
            ihh.1 (by simp [headWs, hd]) (by simp)
          obtain ⟨t2, ts2, hsp2, hspc2⟩ := splitOnWs_cons_not r hd
          rw [hspc2] at hsp
          injection hsp with h1 h2
          subst h1; subst h2
          have hwt : wsTokens (d :: r) = (d :: t2) :: ts2.filter (· ≠ []) := by
            simp [wsTokens, hspc2]
          rw [hjs, hwt, wsTokens, hspc]
          simp
        · have hjs : jsSplitWs (d :: r) = [] :: wsTokens (d :: r) :=
            ihh.2 (by simp [headWs, hd])
          have hsp2 : splitOnWs (d :: r) = [] :: splitOnWs r :=
            splitOnWs_cons_ws r hd
          rw [hsp2] at hsp
          injection hsp with h1 h2
          subst h1; subst h2
          rw [hjs]
          simp [wsTokens, hspc, hsp2]
      · -- whitespace head
        refine ⟨fun h => by simp [headWs, hc] at h, fun _ => ?_⟩
        have hwt : wsTokens (c :: d :: r) = wsTokens (d :: r) := by
          simp [wsTokens, splitOnWs_cons_ws (d :: r) hc]
        rw [hwt, jsSplitWs_cons_cons, hc]
        simp only [if_true]
        cases hd : wsChar d
        · have hjs : jsSplitWs (d :: r) = wsTokens (d :: r) :=
            ihh.1 (by simp [headWs, hd]) (by simp)
          simp [hjs]
        · have hjs : jsSplitWs (d :: r) = [] :: wsTokens (d :: r) :=
            ihh.2 (by simp [headWs, hd])
          simp [hjs]

/-- C5: for every full name that is non-empty after trimming, the builder
splits the trimmed name on whitespace: the first name is the first token,
and the last name is the empty string when there is exactly one token,
otherwise the space-join of all tokens after the first. -/
theorem claim_C5_split_full_name (fullName : Str) (h : jsTrim fullName ≠ []) :
    (splitFullName fullName).1 = (wsTokens (jsTrim fullName)).headD []
    ∧ (splitFullName fullName).2 =
      (if (wsTokens (jsTrim fullName)).length = 1 then []
       else List.intercalate " ".data ((wsTokens (jsTrim fullName)).drop 1)) := by
  have hmain : jsSplitWs (jsTrim fullName) = wsTokens (jsTrim fullName) :=
    (jsSplitWs_spec _ (lastNotWs_jsTrim _)).1 (headWs_jsTrim _) h
  have hne : wsTokens (jsTrim fullName) ≠ [] := by
    rw [← hmain]; exact jsSplitWs_ne_nil _
  have hlen : 1 ≤ (wsTokens (jsTrim fullName)).length := by
    rcases List.exists_cons_of_ne_nil hne with ⟨a, as, hcons⟩
    simp [hcons]
  unfold splitFullName
  rw [hmain]
  constructor
  · rfl
  · show (if (wsTokens (jsTrim fullName)).length > 1
        then List.intercalate " ".data ((wsTokens (jsTrim fullName)).drop 1)
        else []) =
      (if (wsTokens (jsTrim fullName)).length = 1 then []
       else List.intercalate " ".data ((wsTokens (jsTrim fullName)).drop 1))
    rcases Nat.lt_or_ge 1 (wsTokens (jsTrim fullName)).length with hgt | hle
    · rw [if_pos hgt, if_neg (by omega)]
    · have h1 : (wsTokens (jsTrim fullName)).length = 1 := by omega
      rw [if_neg (by omega), if_pos h1]

/-- C5 witness: a concrete multi-token name and a concrete single-token
name, with the token list evaluated. -/
theorem claim_C5_witness :
    ((splitFullName "  Jo Ann  Doe ".data).1
        = (wsTokens (jsTrim "  Jo Ann  Doe ".data)).headD []
      ∧ (splitFullName "  Jo Ann  Doe ".data).2 =
        (if (wsTokens (jsTrim "  Jo Ann  Doe ".data)).length = 1 then []
         else List.intercalate " ".data ((wsTokens (jsTrim "  Jo Ann  Doe ".data)).drop 1)))
    ∧ splitFullName "  Jo Ann  Doe ".data = ("Jo".data, "Ann Doe".data)
    ∧ splitFullName "Prince".data = ("Prince".data, []) :=
  ⟨claim_C5_split_full_name "  Jo Ann  Doe ".data (by decide), by decide, by decide⟩

theorem jsSplitChar_ne_nil (sep : Char) (s : Str) : jsSplitChar sep s ≠ [] := by
  induction s with
  | nil => simp [jsSplitChar]
  | cons c r ih =>
    cases hs : jsSplitChar sep r with
    | nil => exact absurd hs ih
    | cons t ts =>
      by_cases hc : c = sep <;> simp [jsSplitChar, hs, hc]

theorem jsSplitChar_no_sep (sep : Char) (s : Str) (h : sep ∉ s) :
    jsSplitChar sep s = [s] := by
  induction s with
  | nil => rfl
  | cons c r ih =>
    have hc : ¬c = sep := fun hcc => h (by simp [hcc])
    have hr := ih (fun hm => h (by simp [hm]))
    simp [jsSplitChar, hr, hc]

theorem jsSplitChar_append (sep : Char) (local' rest : Str) (h : sep ∉ local') :
    jsSplitChar sep (local' ++ sep :: rest) = local' :: jsSplitChar sep rest := by
  induction local' with
  | nil =>
    cases hs : jsSplitChar sep rest with
    | nil => exact absurd hs (jsSplitChar_ne_nil sep rest)
    | cons t ts => simp [jsSplitChar, hs]
  | cons c l ih =>
    have hc : ¬c = sep := fun hcc => h (by simp [hcc])
    have hr := ih (fun hm => h (by simp [hm]))
    cases hs : jsSplitChar sep (l ++ sep :: rest) with
    | nil => exact absurd hs (jsSplitChar_ne_nil sep (l ++ sep :: rest))
    | cons t ts =>
      rw [hs] at hr
      injection hr with h1 h2
      subst h1; subst h2
      simp [jsSplitChar, hs, hc]

theorem mem_removeAt {x : Char} {s : Str} {i : ℕ} (h : x ∈ removeAt s i) : x ∈ s := by
  rcases List.mem_append.mp h with h | h
  · exact List.take_subset _ _ h
  · exact List.drop_subset _ _ h

theorem getD_mem_or {α : Type} (l : List α) (n : ℕ) (d : α) :
    l.getD n d ∈ l ∨ l.getD n d = d := by
  by_cases h : n < l.length
  · left
    rw [List.getD_eq_getElem l d h]
    exact List.getElem_mem h
  · right
    exact List.getD_eq_default l d (le_of_not_lt h)

theorem getD_filter_ne_at (l : Str) (p : Char → Bool) (n : ℕ) (d : Char)
    (hl : '@' ∉ l) (hd : d ≠ '@') : (l.filter p).getD n d ≠ '@' := by
  rcases getD_mem_or (l.filter p) n d with h | h
  · intro hc
    exact hl (hc ▸ List.mem_of_mem_filter h)
  · rw [h]; exact hd

theorem pickDifferentVowel_ne_at (ex : Char) (g : List ℕ) :
    (pickDifferentVowel ex g).1 ≠ '@' := by
  unfold pickDifferentVowel
  exact getD_filter_ne_at _ _ _ _ (by decide) (by decide)

theorem pickDifferentConsonant_ne_at (ex : Char) (g : List ℕ) :
    (pickDifferentConsonant ex g).1 ≠ '@' := by
  unfold pickDifferentConsonant
  exact getD_filter_ne_at _ _ _ _ (by decide) (by decide)

theorem digitChar_ne_at (k : ℕ) (hk : k < 10) : Char.ofNat (48 + k) ≠ '@' := by
  interval_cases k <;> decide

theorem appendRandomDigits_no_at (n : ℕ) :
    ∀ (s : Str) (g : List ℕ), '@' ∉ s → '@' ∉ (appendRandomDigits s n g).1 := by
  induction n with
  | zero => intro s g h; exact h
  | succ m ih =>
    intro s g h
    simp only [appendRandomDigits, getRandomInt]
    apply ih
    intro hx
    rcases List.mem_append.mp hx with hx | hx
    · exact h hx
    · have hx' : '@' = Char.ofNat (48 + (0 + g.headD 0 % (10 - 0))) := by
        simpa using hx
      exact digitChar_ne_at _ (by omega) hx'.symm

theorem applyAlternativeTransform_no_at (localPart : Str) (g : List ℕ)
    (h : '@' ∉ localPart) : '@' ∉ (applyAlternativeTransform localPart g).1 := by
  unfold applyAlternativeTransform
  simp only [getRandomInt, randCoin]
  split
  · exact appendRandomDigits_no_at _ _ _ h
  · split
    · -- choice 2: drop the last character, maybe replace it
      split
      · exact h
      · split
        · split
          · intro hx
            rcases List.mem_append.mp hx with hx | hx
            · exact h ((List.dropLast_sublist localPart).subset hx)
            · simp at hx
              exact pickDifferentVowel_ne_at _ _ hx.symm
          · intro hx
            rcases List.mem_append.mp hx with hx | hx
            · exact h ((List.dropLast_sublist localPart).subset hx)
            · simp at hx
              exact pickDifferentConsonant_ne_at _ _ hx.symm
        · intro hx
          exact h ((List.dropLast_sublist localPart).subset hx)
    · -- choice 3: remove a random character, maybe insert a replacement
      split
      · exact h
      · split
        · split
          · intro hx
            rcases List.mem_append.mp hx with hx | hx
            · rcases List.mem_append.mp hx with hx | hx
              · exact h (mem_removeAt (List.take_subset _ _ hx))
              · simp at hx
                exact pickDifferentVowel_ne_at _ _ hx.symm
            · exact h (mem_removeAt (List.drop_subset _ _ hx))
          · intro hx
            rcases List.mem_append.mp hx with hx | hx
            · rcases List.mem_append.mp hx with hx | hx
              · exact h (mem_removeAt (List.take_subset _ _ hx))
              · simp at hx
                exact pickDifferentConsonant_ne_at _ _ hx.symm
            · exact h (mem_removeAt (List.drop_subset _ _ hx))
        · intro hx
          exact h (mem_removeAt hx)

theorem removeOneDigit_no_at (s : Str) (g : List ℕ) (h : '@' ∉ s) :
    '@' ∉ (removeOneDigit s g).1.1 := by
  unfold removeOneDigit
  simp only [getRandomInt]
  split
  · exact h
  · intro hx
    exact h (mem_removeAt hx)

theorem removeOneSymbol_no_at (s : Str) (g : List ℕ) (h : '@' ∉ s) :
    '@' ∉ (removeOneSymbol s g).1.1 := by
  unfold removeOneSymbol
  simp only [getRandomInt]
  split
  · exact h
  · intro hx
    exact h (mem_removeAt hx)

theorem transformEmail_unchanged (g : List ℕ) (email : Str) (h : '@' ∉ email) :
    transformEmail g email = email := by
  unfold transformEmail
  rw [jsSplitChar_no_sep '@' email h]
  simp

theorem transformEmail_preserves_domain (g : List ℕ) (local' domain : Str)
    (hl : '@' ∉ local') (hd : '@' ∉ domain) :
    ∃ l', transformEmail g (local' ++ '@' :: domain) = l' ++ '@' :: domain
      ∧ '@' ∉ l' := by
  have hsplit : jsSplitChar '@' (local' ++ '@' :: domain) = [local', domain] := by
    rw [jsSplitChar_append '@' local' domain hl, jsSplitChar_no_sep '@' domain hd]
  unfold transformEmail
  rw [hsplit]
  dsimp only
  split
  · exact ⟨local', rfl, hl⟩
  · split
    · exact ⟨(removeOneDigit local' g).1.1, rfl, removeOneDigit_no_at _ _ hl⟩
    · split
      · exact ⟨(removeOneSymbol local' _).1.1, rfl, removeOneSymbol_no_at _ _ hl⟩
      · exact ⟨(applyAlternativeTransform local' _).1, rfl,
          applyAlternativeTransform_no_at _ _ hl⟩

/-- C9: in the link-builder revision, `transformEmail` returns any
`'@'`-free input unchanged; for an email `local@domain` with a single `'@'`
every possible output (over all random choices) is `local'@domain` for some
`'@'`-free `local'` — the domain part is preserved, only the local part is
altered; and for every valid request the returned checkout URL embeds the
percent-encoded `transformEmail(email)`, not the submitted email. -/
theorem claim_C9_transform_email (g : List ℕ) :
    (∀ email : Str, '@' ∉ email → transformEmail g email = email)
    ∧ (∀ local' domain : Str, '@' ∉ local' → '@' ∉ domain →
      ∃ l', transformEmail g (local' ++ '@' :: domain) = l' ++ '@' :: domain
        ∧ '@' ∉ l')
    ∧ (∀ slug : Str, ∀ req : ReqB, validReqB req →
      handlerB slug g req = .okUrl ("https://".data ++ slug
        ++ ".mycartpanda.com/checkout/".data ++ jsValToStr req.variantId
        ++ ":1?email=".data ++ encodeURIComponent (transformEmail g req.email)
        ++ "&first_name=".data ++ encodeURIComponent (splitFullName req.fullName).1
        ++ "&last_name=".data ++ encodeURIComponent (splitFullName req.fullName).2
        ++ "&phone=".data ++ encodeURIComponent req.phoneNumber)) := by
  refine ⟨transformEmail_unchanged g, transformEmail_preserves_domain g, ?_⟩
  intro slug req hv
  obtain ⟨h1, h2, h3, h4⟩ := hv
  simp [handlerB, h1, h2, h3, h4]

/-- C9 witness: concrete evaluations — domain preservation for
`john1@x.com`, the no-`'@'` identity, and the handler URL embedding the
transformed email. -/
theorem claim_C9_witness :
    (∃ l', transformEmail [0] ("john1".data ++ '@' :: "x.com".data)
      = l' ++ '@' :: "x.com".data ∧ '@' ∉ l')
    ∧ transformEmail [0] "nodomain".data = "nodomain".data
    ∧ handlerB "shop".data [0]
        ⟨.num (.fin 7), "john1@x.com".data, "Jo Do".data, "+31".data⟩
      = .okUrl ("https://".data ++ "shop".data
        ++ ".mycartpanda.com/checkout/".data ++ jsValToStr (.num (.fin 7))
        ++ ":1?email=".data ++ encodeURIComponent (transformEmail [0] "john1@x.com".data)
        ++ "&first_name=".data ++ encodeURIComponent (splitFullName "Jo Do".data).1
        ++ "&last_name=".data ++ encodeURIComponent (splitFullName "Jo Do".data).2
        ++ "&phone=".data ++ encodeURIComponent "+31".data)
    ∧ transformEmail [0] "john1@x.com".data = "john@x.com".data :=
  ⟨(claim_C9_transform_email [0]).2.1 "john1".data "x.com".data (by decide) (by decide),
   (claim_C9_transform_email [0]).1 "nodomain".data (by decide),
   (claim_C9_transform_email [0]).2.2 "shop".data
     ⟨.num (.fin 7), "john1@x.com".data, "Jo Do".data, "+31".data⟩ (by decide),
   by decide⟩
